import Mathlib

/-!
Shallow embedding, in Lean 4, of the scraping pipeline of the
`web-scraping-dominicana` repository (files `Utilities.py`,
`DatasSelectionService.py`, `DownloadService.py`), together with proofs
of the behavioural claims about it.

The browser DOM is external to the program, so it is modelled
explicitly: a date-picker widget is a header-text oracle indexed by the
number of `prev` clicks issued so far, a paginated table is a list of
pages, a control is a record with a `selected` flag, and the download
directory is an observation oracle indexed by elapsed seconds.  The
Python functions themselves are translated line by line into the
definitions below; each definition notes the source lines it embeds.
-/

/- ### Embeddings of the Python string primitives used by the code -/

/-- Embeds Python `str.lower()` (`Utilities.py` uses it on header text and
on the month argument): character-wise ASCII lowercasing. -/
def pyLower (s : String) : String := ⟨s.data.map Char.toLower⟩

/-- Embeds Python `str.strip()` (used on cell and header texts in
`DatasSelectionService._extract_table`): drop whitespace from both ends. -/
def pyStrip (s : String) : String :=
  ⟨((s.data.dropWhile Char.isWhitespace).reverse.dropWhile Char.isWhitespace).reverse⟩

/-- Embeds the Python substring test `needle in hay` on strings
(`Utilities.py` line 96: `month.lower() not in current_text`). -/
def listContains (needle : List Char) : List Char → Bool
  | [] => needle.isEmpty
  | c :: rest => needle.isPrefixOf (c :: rest) || listContains needle rest

/-- Numeric value of an ASCII digit character, as `int()` reads it. -/
def digitVal (c : Char) : Nat := c.toNat - 48

/-- Embeds the `re.search` for four consecutive digits followed by `int`
(`Utilities.py` lines 64-66 and 90-92): the leftmost run of four
consecutive digit characters, decoded as a number; `none` when the text
has no four consecutive digits. -/
def findYear : List Char → Option Nat
  | c1 :: c2 :: c3 :: c4 :: rest =>
    if c1.isDigit && c2.isDigit && c3.isDigit && c4.isDigit then
      some ((((digitVal c1) * 10 + digitVal c2) * 10 + digitVal c3) * 10 + digitVal c4)
    else findYear (c2 :: c3 :: c4 :: rest)
  | _ => none

/- ### DatePickerUtil.select_date (`Utilities.py` lines 16-110) -/

/-- Outcome of a `DatePickerUtil.select_date` run.  `committed k` means
the day-commit click (lines 104-106) was reached after `k` activations
of the `prev` control; `unsupportedDirection k` is the
`NotImplementedError` raised at line 85; `outOfFuel` marks a run longer
than the modelled iteration cap (the Python loops are uncapped). -/
inductive DateNavResult where
  | committed (clicks : Nat)
  | unsupportedDirection (clicks : Nat)
  | outOfFuel
deriving DecidableEq, Repr

/-- The month-alignment loop (`Utilities.py` lines 96-101): while the
lowered month name is not a substring of the current header text, click
`prev`, re-read the header.  `header n` is the (raw) header text shown
after `n` total `prev` clicks; the code lowercases it on every read. -/
def monthLoop (header : Nat → String) (tm : String) : Nat → Nat → String → DateNavResult
  | fuel, clicks, text =>
    if listContains tm.data text.data then .committed clicks
    else
      match fuel with
      | 0 => .outOfFuel
      | f + 1 => monthLoop header tm f (clicks + 1) (pyLower (header (clicks + 1)))

/-- The year-alignment loop (`Utilities.py` lines 74-92): while the
tracked year differs from the target, click `prev` when the tracked year
is larger, otherwise raise `NotImplementedError`; after each click
re-read the header and update the tracked year only when a four-digit
run is found (lines 90-92). -/
def yearLoop (header : Nat → String) (targetYear : Nat) (tm : String) :
    Nat → Nat → Nat → String → DateNavResult
  | fuel, clicks, curYear, text =>
    if curYear = targetYear then monthLoop header tm fuel clicks text
    else if targetYear < curYear then
      match fuel with
      | 0 => .outOfFuel
      | f + 1 =>
        let text2 := pyLower (header (clicks + 1))
        let y2 := match findYear text2.data with
                  | some v => v
                  | none => curYear
        yearLoop header targetYear tm f (clicks + 1) y2 text2
    else .unsupportedDirection clicks

/-- `DatePickerUtil.select_date` (`Utilities.py` lines 16-110), with the
widget modelled by `header`: read and lowercase the initial header text
(line 59); parse the displayed year, defaulting to the *target* year
when no four-digit run is present (lines 64-69); align the year, then
the month, then click the day cell.  `fuel` is the iteration cap the
specification requires an implementation to impose on the otherwise
uncapped loops. -/
def select_date (header : Nat → String) (day : Nat) (month : String) (year : Nat)
    (fuel : Nat) : DateNavResult :=
  let text0 := pyLower (header 0)
  let y0 := match findYear text0.data with
            | some v => v
            | none => year
  yearLoop header year (pyLower month) fuel 0 y0 text0

/- ### A well-behaved date-picker widget, for reachability statements -/

/-- Displayed position of a bootstrap-style month picker. -/
structure YM where
  year : Nat
  month : Nat
deriving DecidableEq, Repr

/-- Effect of one activation of the `prev` control: one month back,
borrowing from the year at January. -/
def prevYM (s : YM) : YM :=
  if s.month = 1 then ⟨s.year - 1, 12⟩ else ⟨s.year, s.month - 1⟩

/-- Position after `n` activations of the `prev` control. -/
def stepYM : Nat → YM → YM
  | 0, s => s
  | n + 1, s => stepYM n (prevYM s)

/-- Lower-case Spanish month names as the widget under test displays
them (the page is the Spanish-language plant portal; `main.py` passes
`month="febrero"`). -/
def monthName : Nat → String
  | 1 => "enero"
  | 2 => "febrero"
  | 3 => "marzo"
  | 4 => "abril"
  | 5 => "mayo"
  | 6 => "junio"
  | 7 => "julio"
  | 8 => "agosto"
  | 9 => "septiembre"
  | 10 => "octubre"
  | 11 => "noviembre"
  | 12 => "diciembre"
  | _ => "mes"

/-- One ASCII digit character of a year, by decimal position. -/
def digitChar (n : Nat) : Char :=
  match n % 10 with
  | 0 => '0'
  | 1 => '1'
  | 2 => '2'
  | 3 => '3'
  | 4 => '4'
  | 5 => '5'
  | 6 => '6'
  | 7 => '7'
  | 8 => '8'
  | _ => '9'

/-- Four-digit rendering of a year, as the widget header shows it. -/
def yearString (y : Nat) : String :=
  ⟨[digitChar (y / 1000), digitChar (y / 100), digitChar (y / 10), digitChar y]⟩

/-- Header text of the switch element at position `s`, e.g.
`"febrero 2025"`. -/
def headerOf (s : YM) : String :=
  ⟨(monthName s.month).data ++ ' ' :: (yearString s.year).data⟩

/-- The header-text oracle of a well-behaved widget that starts at
`s0`. -/
def widgetHeader (s0 : YM) (n : Nat) : String := headerOf (stepYM n s0)

/- ### DataSelectionService (`DatasSelectionService.py`) -/

/-- `DataSelectionConfig` (`DatasSelectionService.py` lines 12-36): the
URL and the XPath locators the service is configured with. -/
structure DataSelectionConfig where
  url_analysis : String
  daily_button_xpath : String
  date_picker_xpath : String
  typology_select_xpath : String
  next_button_xpath : String
  confirm_button_xpath : String
  table_xpath : String
  pagination_next_xpath : String
deriving DecidableEq, Repr

/-- The positional parameters of `_extract_table` after `wait`
(`DatasSelectionService.py` line 193): second positional parameter
`pagination_next_xpath`, third positional parameter `table_xpath`
(whose default is the generic table XPath). -/
structure ExtractTableArgs where
  pagination_next_xpath : String
  table_xpath : String
deriving DecidableEq, Repr

/-- The argument binding performed by the call at
`DatasSelectionService.py` line 145,
`self._extract_table(wait, self.config.table_xpath,
self.config.pagination_next_xpath)`: the second positional argument is
`config.table_xpath` and the third is `config.pagination_next_xpath`. -/
def select_data_extract_args (cfg : DataSelectionConfig) : ExtractTableArgs :=
  { pagination_next_xpath := cfg.table_xpath
    table_xpath := cfg.pagination_next_xpath }

/-- The locator `_extract_table` waits on for presence of the table when
reading headers and rows (`DatasSelectionService.py` lines 202 and 210):
its `table_xpath` parameter. -/
def table_wait_locator (a : ExtractTableArgs) : String := a.table_xpath

/-- The locator `_extract_table` resolves the pagination next control
from before reading its `class` attribute for `disabled`
(`DatasSelectionService.py` lines 220-222): its `pagination_next_xpath`
parameter. -/
def next_control_locator (a : ExtractTableArgs) : String := a.pagination_next_xpath

/-- A configuration with the documented sample locators (table locator
from the `table_xpath` default at line 193, a generic pagination
control); the two locators of interest are distinct. -/
def cfgSample : DataSelectionConfig :=
  { url_analysis := "https://example.invalid/analysis"
    daily_button_xpath := "//button[@id=\"daily\"]"
    date_picker_xpath := "//input[@class=\"form-control form-control-sm\"]"
    typology_select_xpath := "//select[@id=\"typology\"]"
    next_button_xpath := "//button[@id=\"ok\"]"
    confirm_button_xpath := "//button[@id=\"confirm\"]"
    table_xpath := "//table[contains(@class, \"table\")]"
    pagination_next_xpath := "//li[@class=\"page-next\"]/a" }

/-- Outcome of probing the pagination next control once the current
rows of the current page were read (`DatasSelectionService.py` lines 218-229). -/
inductive NextControl where
  /-- `find_element` raises (line 227): assumed end of pagination. -/
  | missing
  /-- the `class` attribute contains `disabled` (lines 222-223). -/
  | hasDisabledClass
  /-- the click itself raises and is caught (lines 224, 227-229). -/
  | clickFails
  /-- the click succeeds and the next page loads (lines 224-226). -/
  | advances
deriving DecidableEq, Repr

/-- One rendered page of the paginated table: the raw `td` cell texts of
its body rows, and what probing the next control after it yields. -/
structure Page where
  rows : List (List String)
  next : NextControl
deriving Repr

/-- First page of a two-page sample table: its next control advances. -/
def pageA : Page := ⟨[[" a ", "b"], ["c", "d", "e"]], .advances⟩

/-- Terminal sample page (next control disabled). -/
def pageB : Page := ⟨[["f"]], .hasDisabledClass⟩

/-- Cell post-processing of one body row
(`DatasSelectionService.py` line 215): strip every cell text. -/
def stripRow (cells : List String) : List String := cells.map pyStrip

/-- The pagination loop of `_extract_table`
(`DatasSelectionService.py` lines 208-229): append the (stripped) rows of
the current page to the accumulator, then probe the next control; stop
when it is missing, carries the `disabled` class, or its click fails;
otherwise continue on the next page. -/
def extract_table_loop : List Page → List (List String) → List (List String)
  | [], acc => acc
  | p :: rest, acc =>
    let acc2 := acc ++ p.rows.map stripRow
    match p.next with
    | .advances => extract_table_loop rest acc2
    | _ => acc2

/-- Header extraction of `_extract_table`
(`DatasSelectionService.py` lines 205-206): strip each `th` text and
keep only the (truthy, i.e. nonempty) results, in document order. -/
def extract_headers (cells : List String) : List String :=
  (cells.map pyStrip).filter (fun s => !s.isEmpty)

/-- Observable state of a clickable control (checkbox or button): its
`is_selected()` report and how many click activations it has
received. -/
structure Control where
  selected : Bool
  clicks : Nat
deriving DecidableEq, Repr

/-- A click on a selectable control toggles its selected state and
counts one activation. -/
def clickControl (c : Control) : Control :=
  { selected := !c.selected, clicks := c.clicks + 1 }

/-- `DataSelectionService.checked_click`
(`DatasSelectionService.py` lines 237-249): click only when the control
does not already report itself selected. -/
def checked_click (c : Control) : Control :=
  if c.selected then c else clickControl c

/-- Python truthiness of the `dict.get` result as tested by
`if not xpath:` (`DatasSelectionService.py` lines 170 and 186): `None`
and the empty string are falsy. -/
def pyFalsy : Option String → Bool
  | none => true
  | some s => s.isEmpty

/-- One typology entry of the `Typology.Typology` dictionary
(`DatasSelectionService.py` lines 392-404): its `Elements` and
`Parameters` tables, name to XPath. -/
structure TypologyEntry where
  elements : List (String × String)
  parameters : List (String × String)
deriving DecidableEq, Repr

/-- What a run of the element/parameter toggling loop did: which names
were toggled via `checked_click`, and which were skipped with a logged
warning, in order. -/
structure SelectLog where
  toggled : List String
  warnings : List String
deriving DecidableEq, Repr

/-- The loop shared by `_select_elements` and `_select_parameters`
(`DatasSelectionService.py` lines 161-175 and 177-191), over the
section table picked by `sect` (the `Elements` table for elements, the
`Parameters` table for parameters): an empty name list returns at once (lines 166-167
and 182-183); each iteration subscripts the typology dictionary with
the category key — a `KeyError` aborts the run (modelled as `.error`) —
then resolves the name with `.get`; a falsy result logs a warning and
continues, otherwise the control is toggled. -/
def select_with (sect : TypologyEntry → List (String × String))
    (typology_dict : List (String × TypologyEntry)) (typology_key : String) :
    List String → Except String SelectLog
  | [] => .ok ⟨[], []⟩
  | n :: rest =>
    match typology_dict.lookup typology_key with
    | none => .error "KeyError"
    | some entry =>
      if pyFalsy ((sect entry).lookup n) then
        (select_with sect typology_dict typology_key rest).map
          (fun log => { log with warnings := n :: log.warnings })
      else
        (select_with sect typology_dict typology_key rest).map
          (fun log => { log with toggled := n :: log.toggled })

/-- `_select_elements` (`DatasSelectionService.py` lines 161-175). -/
def select_elements (typology_dict : List (String × TypologyEntry))
    (typology_key : String) (names : List String) : Except String SelectLog :=
  select_with TypologyEntry.elements typology_dict typology_key names

/-- `_select_parameters` (`DatasSelectionService.py` lines 177-191). -/
def select_parameters (typology_dict : List (String × TypologyEntry))
    (typology_key : String) (names : List String) : Except String SelectLog :=
  select_with TypologyEntry.parameters typology_dict typology_key names

/- ### DownloadService (`DownloadService.py`) -/

/-- What one probe of the download directory observes: the file does not
exist, it exists but opening for append raises `PermissionError`, or it
exists and opens for append. -/
inductive FileObs where
  | absent
  | locked
  | ready
deriving DecidableEq, Repr

/-- The polling loop of `DownloadService._wait_for_downloaded_file`
(`DownloadService.py` lines 147-165), with the filesystem modelled by
`fs` (observation at each elapsed second): while `elapsed < timeout`,
return the full path as soon as the file exists and is appendable;
on `PermissionError` or absence sleep one interval and retry; past the
timeout return `None`.  `remaining` is `timeout - elapsed`. -/
def waitLoop (fs : Nat → FileObs) (full_path : String) :
    Nat → Nat → Option String
  | 0, _ => none
  | r + 1, elapsed =>
    match fs elapsed with
    | .ready => some full_path
    | _ => waitLoop fs full_path r (elapsed + 1)

/-- `DownloadService._wait_for_downloaded_file`
(`DownloadService.py` lines 134-165). -/
def wait_for_downloaded_file (fs : Nat → FileObs) (full_path : String)
    (timeout : Nat) : Option String :=
  waitLoop fs full_path timeout 0

/-- The finalization step of `DownloadService.download_data`
(`DownloadService.py` lines 104-110): a `None` from the wait raises
`FileNotFoundError`, otherwise the path is returned for renaming. -/
def download_data_outcome (fs : Nat → FileObs) (full_path : String)
    (timeout : Nat) : Except String String :=
  match wait_for_downloaded_file fs full_path timeout with
  | some p => .ok p
  | none => .error "FileNotFoundError"

/- ### Helper lemmas about the string primitives and the model widget -/

lemma listContains_nil_needle (l : List Char) : listContains [] l = true := by
  induction l with
  | nil => rfl
  | cons c rest ih => simp [listContains, ih]

lemma isPrefixOf_append_self (l t : List Char) : l.isPrefixOf (l ++ t) = true := by
  induction l with
  | nil => simp [List.isPrefixOf]
  | cons c rest ih => simp [List.isPrefixOf, ih]

lemma listContains_append_self (l t : List Char) : listContains l (l ++ t) = true := by
  cases l with
  | nil => exact listContains_nil_needle t
  | cons c rest =>
    rw [List.cons_append, listContains]
    rw [← List.cons_append, isPrefixOf_append_self]
    rfl

lemma digitChar_isDigit (n : Nat) : (digitChar n).isDigit = true := by
  unfold digitChar
  have h : n % 10 < 10 := Nat.mod_lt _ (by omega)
  generalize n % 10 = k at h ⊢
  interval_cases k <;> decide

lemma toLower_digitChar (n : Nat) : Char.toLower (digitChar n) = digitChar n := by
  unfold digitChar
  have h : n % 10 < 10 := Nat.mod_lt _ (by omega)
  generalize n % 10 = k at h ⊢
  interval_cases k <;> decide

lemma digitVal_digitChar (n : Nat) : digitVal (digitChar n) = n % 10 := by
  unfold digitChar
  have h : n % 10 < 10 := Nat.mod_lt _ (by omega)
  generalize n % 10 = k at h ⊢
  interval_cases k <;> decide

lemma monthName_lower (m : Nat) (h1 : 1 ≤ m) (h2 : m ≤ 12) :
    (monthName m).data.map Char.toLower = (monthName m).data := by
  interval_cases m <;> decide

lemma pyLower_monthName (m : Nat) (h1 : 1 ≤ m) (h2 : m ≤ 12) :
    pyLower (monthName m) = monthName m := by
  interval_cases m <;> decide

lemma monthName_not_digit (m : Nat) (h1 : 1 ≤ m) (h2 : m ≤ 12) :
    ∀ c ∈ (monthName m).data, c.isDigit = false := by
  interval_cases m <;> decide

lemma yearString_lower (y : Nat) :
    (yearString y).data.map Char.toLower = (yearString y).data := by
  simp [yearString, toLower_digitChar]

lemma pyLower_headerOf (s : YM) (h1 : 1 ≤ s.month) (h2 : s.month ≤ 12) :
    pyLower (headerOf s) = headerOf s := by
  unfold pyLower headerOf
  simp [monthName_lower s.month h1 h2, yearString_lower]

lemma findYear_yearString (y : Nat) :
    findYear (yearString y).data =
      some ((((y / 1000 % 10) * 10 + y / 100 % 10) * 10 + y / 10 % 10) * 10 + y % 10) := by
  simp [yearString, findYear, digitChar_isDigit, digitVal_digitChar]

lemma findYear_cons_nondigit (c : Char) (l : List Char) (hc : c.isDigit = false)
    (h3 : 3 ≤ l.length) : findYear (c :: l) = findYear l := by
  cases l with
  | nil => simp at h3
  | cons a t =>
    cases t with
    | nil => simp at h3
    | cons b u =>
      cases u with
      | nil => simp at h3
      | cons d v => simp [findYear, hc]

lemma findYear_append_nondigit (l rest : List Char) (hl : ∀ c ∈ l, c.isDigit = false)
    (h4 : 4 ≤ rest.length) : findYear (l ++ rest) = findYear rest := by
  induction l with
  | nil => rfl
  | cons c l ih =>
    rw [List.cons_append]
    rw [findYear_cons_nondigit c (l ++ rest) (hl c (by simp)) (by simp; omega)]
    exact ih (fun c hc => hl c (by simp [hc]))

lemma findYear_headerOf (s : YM) (h1 : 1000 ≤ s.year) (h2 : s.year ≤ 9999)
    (hm1 : 1 ≤ s.month) (hm2 : s.month ≤ 12) :
    findYear (headerOf s).data = some s.year := by
  unfold headerOf
  show findYear ((monthName s.month).data ++ ' ' :: (yearString s.year).data) = some s.year
  rw [show ((monthName s.month).data ++ ' ' :: (yearString s.year).data) =
      ((monthName s.month).data ++ [' ']) ++ (yearString s.year).data by simp]
  rw [findYear_append_nondigit]
  · rw [findYear_yearString]
    congr 1
    omega
  · intro c hc
    simp at hc
    rcases hc with hc | hc
    · exact monthName_not_digit s.month hm1 hm2 c hc
    · rw [hc]; rfl
  · simp [yearString]

lemma stepYM_succ (n : Nat) (s : YM) : stepYM (n + 1) s = prevYM (stepYM n s) := by
  induction n generalizing s with
  | zero => rfl
  | succ k ih =>
    show stepYM (k + 1) (prevYM s) = prevYM (stepYM (k + 1) s)
    rw [ih (prevYM s)]
    rfl

lemma monthName_contains_headerOf (s : YM) (m : Nat) (heq : s.month = m) :
    listContains (monthName m).data (headerOf s).data = true := by
  subst heq
  show listContains (monthName s.month).data
    ((monthName s.month).data ++ ' ' :: (yearString s.year).data) = true
  exact listContains_append_self _ _

lemma monthLoop_commits (s0 : YM) (m : Nat) (hm1 : 1 ≤ m) (hm2 : m ≤ 12) :
    ∀ fuel clicks s, s = stepYM clicks s0 →
      m ≤ s.month → s.month ≤ 12 → s.month - m ≤ fuel →
      ∃ j, clicks ≤ j ∧ j ≤ clicks + (s.month - m) ∧
        monthLoop (widgetHeader s0) (monthName m) fuel clicks (headerOf s) =
          .committed j := by
  intro fuel
  induction fuel with
  | zero =>
    intro clicks s hs hm hs12 hfuel
    have heq : s.month = m := by omega
    refine ⟨clicks, le_rfl, by omega, ?_⟩
    rw [monthLoop]
    simp [monthName_contains_headerOf s m heq]
  | succ f ih =>
    intro clicks s hs hm hs12 hfuel
    by_cases hc : listContains (monthName m).data (headerOf s).data = true
    · exact ⟨clicks, le_rfl, by omega, by rw [monthLoop]; simp [hc]⟩
    · have hne : s.month ≠ m := fun heq => hc (monthName_contains_headerOf s m heq)
      have hlt : m < s.month := lt_of_le_of_ne hm (Ne.symm hne)
      have hsm2 : 2 ≤ s.month := by omega
      have hs' : prevYM s = ⟨s.year, s.month - 1⟩ := by
        unfold prevYM
        rw [if_neg (by omega)]
      have hstep : widgetHeader s0 (clicks + 1) = headerOf (prevYM s) := by
        unfold widgetHeader
        rw [stepYM_succ, ← hs]
      obtain ⟨j, hj1, hj2, hj3⟩ := ih (clicks + 1) (prevYM s)
        (by rw [hs, stepYM_succ]) (by rw [hs']; simp; omega)
        (by rw [hs']; simp; omega) (by rw [hs']; simp; omega)
      refine ⟨j, by omega, ?_, ?_⟩
      · rw [hs'] at hj2
        simp at hj2
        omega
      · rw [monthLoop]
        simp only [hc, Bool.false_eq_true, if_false]
        rw [hstep, pyLower_headerOf (prevYM s) (by rw [hs']; simp; omega)
          (by rw [hs']; simp; omega)]
        exact hj3

lemma yearLoop_commits (s0 : YM) (y m : Nat) (hy1 : 1000 ≤ y)
    (hm1 : 1 ≤ m) (hm2 : m ≤ 12) :
    ∀ fuel clicks s, s = stepYM clicks s0 →
      y ≤ s.year → s.year ≤ 9999 → 1 ≤ s.month → s.month ≤ 12 →
      (y < s.year ∨ (y = s.year ∧ m ≤ s.month)) →
      12 * s.year + s.month - (12 * y + m) ≤ fuel →
      ∃ j, j ≤ clicks + (12 * s.year + s.month - (12 * y + m)) ∧
        yearLoop (widgetHeader s0) y (monthName m) fuel clicks s.year (headerOf s) =
          .committed j := by
  intro fuel
  induction fuel with
  | zero =>
    intro clicks s hs hyle h99 hsm1 hsm12 hreach hfuel
    have heqy : s.year = y := by omega
    have heqm : s.month = m := by omega
    obtain ⟨j, hj1, hj2, hj3⟩ := monthLoop_commits s0 m hm1 hm2 0 clicks s hs
      (by omega) hsm12 (by omega)
    refine ⟨j, by omega, ?_⟩
    rw [yearLoop, if_pos heqy]
    exact hj3
  | succ f ih =>
    intro clicks s hs hyle h99 hsm1 hsm12 hreach hfuel
    by_cases hcy : s.year = y
    · have hms : m ≤ s.month := by
        rcases hreach with h | ⟨_, h⟩
        · omega
        · exact h
      obtain ⟨j, hj1, hj2, hj3⟩ := monthLoop_commits s0 m hm1 hm2 (f + 1) clicks s hs
        hms hsm12 (by omega)
      refine ⟨j, by omega, ?_⟩
      rw [yearLoop, if_pos hcy]
      exact hj3
    · have hlty : y < s.year := lt_of_le_of_ne hyle (Ne.symm hcy)
      have hstep : widgetHeader s0 (clicks + 1) = headerOf (prevYM s) := by
        unfold widgetHeader
        rw [stepYM_succ, ← hs]
      have hp1 : 1 ≤ (prevYM s).month := by
        unfold prevYM; split <;> simp <;> omega
      have hp12 : (prevYM s).month ≤ 12 := by
        unfold prevYM; split <;> simp <;> omega
      have hpy1 : y ≤ (prevYM s).year := by
        unfold prevYM; split <;> simp <;> omega
      have hpy2 : (prevYM s).year ≤ 9999 := by
        unfold prevYM; split <;> simp <;> omega
      have hpy1000 : 1000 ≤ (prevYM s).year := by omega
      have hmeas : 12 * (prevYM s).year + (prevYM s).month =
          12 * s.year + s.month - 1 := by
        unfold prevYM; split
        · rename_i h1; simp [h1]; omega
        · rename_i h1; simp; omega
      have hreach' : y < (prevYM s).year ∨ (y = (prevYM s).year ∧ m ≤ (prevYM s).month) := by
        by_cases hpe : y = (prevYM s).year
        · right
          refine ⟨hpe, ?_⟩
          omega
        · left
          omega
      obtain ⟨j, hj1, hj2⟩ := ih (clicks + 1) (prevYM s) (by rw [hs, stepYM_succ])
        hpy1 hpy2 hp1 hp12 hreach' (by omega)
      refine ⟨j, by omega, ?_⟩
      rw [yearLoop, if_neg hcy, if_pos hlty]
      simp only []
      rw [hstep, pyLower_headerOf (prevYM s) hp1 hp12,
        findYear_headerOf (prevYM s) hpy1000 hpy2 hp1 hp12]
      exact hj2

lemma yearLoop_unfold (header : Nat → String) (targetYear : Nat) (tm : String)
    (fuel clicks curYear : Nat) (text : String) :
    yearLoop header targetYear tm fuel clicks curYear text =
      if curYear = targetYear then monthLoop header tm fuel clicks text
      else if targetYear < curYear then
        match fuel with
        | 0 => .outOfFuel
        | f + 1 =>
          yearLoop header targetYear tm f (clicks + 1)
            (match findYear (pyLower (header (clicks + 1))).data with
             | some v => v
             | none => curYear)
            (pyLower (header (clicks + 1)))
      else .unsupportedDirection clicks := by
  cases fuel <;> rfl

/-- Claim C2: whenever the year parsed from the widget header is strictly
below the target year (target strictly ahead of the widget), the
year-alignment loop of `DatePickerUtil.select_date` raises the
unsupported-direction error (`NotImplementedError`, `Utilities.py` line
85) at once, with zero `prev` activations, for every fuel budget: no
forward navigation is attempted and no silent looping occurs. -/
theorem select_date_forward_target_raises (header : Nat → String) (d : Nat)
    (month : String) (year y0 fuel : Nat)
    (hparse : findYear (pyLower (header 0)).data = some y0) (hlt : y0 < year) :
    select_date header d month year fuel = .unsupportedDirection 0 := by
  simp only [select_date, hparse]
  rw [yearLoop_unfold, if_neg (by omega), if_neg (by omega)]

theorem select_date_forward_target_raises_witness :
    select_date (fun _ => "marzo 2025") 1 "enero" 2026 240 =
      .unsupportedDirection 0 :=
  select_date_forward_target_raises (fun _ => "marzo 2025") 1 "enero" 2026 2025 240
    (by decide) (by decide)

/-- Claim C9: when the widget header text contains no run of four digit
characters, `DatePickerUtil.select_date` silently takes the current year
to be the target year (`Utilities.py` lines 67-69), so the
year-alignment loop body never runs — zero `prev` clicks are spent on
year alignment, no error is raised — and the run is exactly the
month-alignment loop started on the initial header text. -/
theorem select_date_no_header_year_skips_alignment (header : Nat → String)
    (d : Nat) (month : String) (year fuel : Nat)
    (hparse : findYear (pyLower (header 0)).data = none) :
    select_date header d month year fuel =
      monthLoop header (pyLower month) fuel 0 (pyLower (header 0)) := by
  simp only [select_date, hparse]
  rw [yearLoop_unfold, if_pos rfl]

theorem select_date_no_header_year_skips_alignment_witness :
    select_date (fun _ => "marzo") 1 "marzo" 2024 7 =
      monthLoop (fun _ => "marzo") (pyLower "marzo") 7 0 (pyLower "marzo") :=
  select_date_no_header_year_skips_alignment (fun _ => "marzo") 1 "marzo" 2024 7
    (by decide)

/-- Claim C3: for every valid navigation target reachable by
only-backward stepping from the initially displayed year and
month (and within the 20-year horizon the 240-step cap is sized for),
`DatePickerUtil.select_date` on a well-behaved widget reaches the
day-commit click within the iteration cap of 240 `prev` activations. -/
theorem select_date_backward_reachable_commits (y0 m0 d y m : Nat) (month : String)
    (hy1 : 1000 ≤ y) (hy2 : y ≤ y0) (hy3 : y0 ≤ 9999)
    (hm01 : 1 ≤ m0) (hm02 : m0 ≤ 12) (hm1 : 1 ≤ m) (hm2 : m ≤ 12)
    (hreach : y < y0 ∨ (y = y0 ∧ m ≤ m0)) (hcap : y0 - y ≤ 19)
    (hmonth : month = monthName m) :
    ∃ k, k ≤ 240 ∧
      select_date (widgetHeader ⟨y0, m0⟩) d month y 240 = .committed k := by
  subst hmonth
  simp only [select_date]
  rw [show widgetHeader ⟨y0, m0⟩ 0 = headerOf ⟨y0, m0⟩ from rfl]
  rw [pyLower_headerOf ⟨y0, m0⟩ hm01 hm02]
  rw [findYear_headerOf ⟨y0, m0⟩ (by show 1000 ≤ y0; omega) (by show y0 ≤ 9999; omega)
    hm01 hm02]
  rw [pyLower_monthName m hm1 hm2]
  have hreach2 : y < (⟨y0, m0⟩ : YM).year ∨
      (y = (⟨y0, m0⟩ : YM).year ∧ m ≤ (⟨y0, m0⟩ : YM).month) := hreach
  have hmeas : 12 * (⟨y0, m0⟩ : YM).year + (⟨y0, m0⟩ : YM).month - (12 * y + m) ≤ 240 := by
    show 12 * y0 + m0 - (12 * y + m) ≤ 240
    omega
  obtain ⟨j, hj1, hj2⟩ := yearLoop_commits ⟨y0, m0⟩ y m hy1 hm1 hm2 240 0 ⟨y0, m0⟩
    rfl hy2 hy3 hm01 hm02 hreach2 hmeas
  have hj1' : j ≤ 0 + (12 * y0 + m0 - (12 * y + m)) := hj1
  exact ⟨j, by omega, hj2⟩

theorem select_date_backward_reachable_commits_witness :
    ∃ k, k ≤ 240 ∧
      select_date (widgetHeader ⟨2025, 3⟩) 15 "enero" 2024 240 = .committed k :=
  select_date_backward_reachable_commits 2025 3 15 2024 1 "enero"
    (by decide) (by decide) (by decide) (by decide) (by decide) (by decide)
    (by decide) (by decide) (by decide) (by decide)

/- ### Theorems about DataSelectionService -/

/-- Claim C1, refuted by the code: at the table-extraction call of
`select_data` (`DatasSelectionService.py` line 145) the two locators are
bound to the *swapped* parameters of `_extract_table` (line 193), so on
the sample configuration the presence wait for the table uses the
configured pagination-next locator and the `disabled` check reads the
element found by the configured table locator — not the intended
roles. -/
theorem extract_table_locators_swapped :
    table_wait_locator (select_data_extract_args cfgSample) =
        cfgSample.pagination_next_xpath ∧
      next_control_locator (select_data_extract_args cfgSample) =
        cfgSample.table_xpath ∧
      table_wait_locator (select_data_extract_args cfgSample) ≠
        cfgSample.table_xpath := by
  refine ⟨rfl, rfl, ?_⟩
  decide

lemma extract_table_loop_append (ps : List Page) (plast : Page)
    (hall : ∀ p ∈ ps, p.next = .advances) (hlast : plast.next ≠ .advances) :
    ∀ acc, extract_table_loop (ps ++ [plast]) acc =
      acc ++ ((ps ++ [plast]).map (fun p => p.rows.map stripRow)).flatten := by
  induction ps with
  | nil =>
    intro acc
    rw [List.nil_append, extract_table_loop]
    cases hp : plast.next
    · simp [hp]
    · simp [hp]
    · simp [hp]
    · exact absurd hp hlast
  | cons p ps ih =>
    intro acc
    have hp : p.next = .advances := hall p (by simp)
    rw [List.cons_append, extract_table_loop, hp]
    rw [ih (fun q hq => hall q (by simp [hq])) (acc ++ p.rows.map stripRow)]
    simp

/-- Claim C4: paginated table extraction is order-preserving and
exhaustive.  For every sequence of pages whose next control advances on
all but the last page, the final accumulator is exactly the
concatenation of the (stripped) body-row cell texts of every page in
page-then-row document order — no deduplication, no width validation —
and the loop stops exactly when the next control is missing, its click
fails, or it carries the `disabled` class, so a table whose first page
already has a non-advancing next control yields exactly the rows of that
one page. -/
theorem extract_table_order_preserving_exhaustive (ps : List Page) (plast : Page)
    (hall : ∀ p ∈ ps, p.next = .advances) (hlast : plast.next ≠ .advances) :
    extract_table_loop (ps ++ [plast]) [] =
        ((ps ++ [plast]).map (fun p => p.rows.map stripRow)).flatten ∧
      extract_table_loop [plast] [] = plast.rows.map stripRow := by
  constructor
  · simpa using extract_table_loop_append ps plast hall hlast []
  · have := extract_table_loop_append [] plast (by simp) hlast []
    simpa using this

theorem extract_table_order_preserving_exhaustive_witness :
    extract_table_loop ([pageA] ++ [pageB]) [] =
        (([pageA] ++ [pageB]).map (fun p => p.rows.map stripRow)).flatten ∧
      extract_table_loop [pageB] [] = pageB.rows.map stripRow :=
  extract_table_order_preserving_exhaustive [pageA] pageB
    (by decide) (by decide)

/-- Claim C5: `checked_click` is idempotent in observable state — a
control that already reports itself selected is not clicked, and two
successive `checked_click` calls issue exactly one activation from an
unselected start (`toggle (toggle x) = toggle x`). -/
theorem checked_click_idempotent (c : Control) :
    (c.selected = true → checked_click c = c) ∧
      checked_click (checked_click c) = checked_click c ∧
      (c.selected = false → (checked_click (checked_click c)).clicks = c.clicks + 1) := by
  cases hc : c.selected <;> simp [checked_click, clickControl, hc]

theorem checked_click_idempotent_witness :
    checked_click (checked_click ⟨false, 0⟩) = checked_click ⟨false, 0⟩ ∧
      (checked_click (checked_click ⟨false, 0⟩)).clicks = 0 + 1 :=
  ⟨(checked_click_idempotent ⟨false, 0⟩).2.1,
   (checked_click_idempotent ⟨false, 0⟩).2.2 rfl⟩

lemma select_with_resolved (sect : TypologyEntry → List (String × String))
    (typology_dict : List (String × TypologyEntry)) (key : String)
    (entry : TypologyEntry) (hkey : typology_dict.lookup key = some entry) :
    ∀ names : List String,
      select_with sect typology_dict key names =
        .ok ⟨names.filter (fun n => !pyFalsy ((sect entry).lookup n)),
             names.filter (fun n => pyFalsy ((sect entry).lookup n))⟩ := by
  intro names
  induction names with
  | nil => rfl
  | cons n rest ih =>
    rw [select_with, hkey]
    by_cases hf : pyFalsy ((sect entry).lookup n) = true
    · simp [hf, ih, List.filter_cons, Except.map]
    · simp at hf
      simp [hf, ih, List.filter_cons, Except.map]

/-- Claim C6: when the configured category key resolves, every
element/parameter name whose per-name locator lookup is falsy (absent or
empty) is skipped with a warning while all remaining configured names
are still toggled, in order, and the run completes normally (`.ok`,
never aborted) — for both `_select_elements` and
`_select_parameters`. -/
theorem select_skips_unresolved_names (typology_dict : List (String × TypologyEntry))
    (key : String) (entry : TypologyEntry) (names : List String)
    (hkey : typology_dict.lookup key = some entry) :
    select_elements typology_dict key names =
        .ok ⟨names.filter (fun n => !pyFalsy (entry.elements.lookup n)),
             names.filter (fun n => pyFalsy (entry.elements.lookup n))⟩ ∧
      select_parameters typology_dict key names =
        .ok ⟨names.filter (fun n => !pyFalsy (entry.parameters.lookup n)),
             names.filter (fun n => pyFalsy (entry.parameters.lookup n))⟩ :=
  ⟨select_with_resolved TypologyEntry.elements typology_dict key entry hkey names,
   select_with_resolved TypologyEntry.parameters typology_dict key entry hkey names⟩

theorem select_skips_unresolved_names_witness :
    select_elements [("Inversor - (INVERSOR)",
        ⟨[("UP1 INV1.1-01", "//label[1]"), ("UP1 INV1.1-02", "")],
         [("POTENCIA ACTIVA", "//label[2]")]⟩)]
      "Inversor - (INVERSOR)" ["UP1 INV1.1-01", "ghost", "UP1 INV1.1-02"] =
        .ok ⟨["UP1 INV1.1-01", "ghost", "UP1 INV1.1-02"].filter
               (fun n => !pyFalsy (([("UP1 INV1.1-01", "//label[1]"),
                 ("UP1 INV1.1-02", "")] : List (String × String)).lookup n)),
             ["UP1 INV1.1-01", "ghost", "UP1 INV1.1-02"].filter
               (fun n => pyFalsy (([("UP1 INV1.1-01", "//label[1]"),
                 ("UP1 INV1.1-02", "")] : List (String × String)).lookup n))⟩ ∧
      select_parameters [("Inversor - (INVERSOR)",
        ⟨[("UP1 INV1.1-01", "//label[1]"), ("UP1 INV1.1-02", "")],
         [("POTENCIA ACTIVA", "//label[2]")]⟩)]
      "Inversor - (INVERSOR)" ["UP1 INV1.1-01", "ghost", "UP1 INV1.1-02"] =
        .ok ⟨["UP1 INV1.1-01", "ghost", "UP1 INV1.1-02"].filter
               (fun n => !pyFalsy (([("POTENCIA ACTIVA", "//label[2]")] :
                 List (String × String)).lookup n)),
             ["UP1 INV1.1-01", "ghost", "UP1 INV1.1-02"].filter
               (fun n => pyFalsy (([("POTENCIA ACTIVA", "//label[2]")] :
                 List (String × String)).lookup n))⟩ :=
  select_skips_unresolved_names _ "Inversor - (INVERSOR)"
    ⟨[("UP1 INV1.1-01", "//label[1]"), ("UP1 INV1.1-02", "")],
     [("POTENCIA ACTIVA", "//label[2]")]⟩
    ["UP1 INV1.1-01", "ghost", "UP1 INV1.1-02"] (by decide)

/-- Claim C10: if the configured category key is absent from the
typology dictionary and at least one name is configured, the first loop
dictionary subscript of the first iteration raises a `KeyError` that aborts the
whole run, for both element and parameter toggling — category-level
resolution failure is fatal, unlike the logged-and-skipped per-name
failure. -/
theorem select_missing_category_aborts (typology_dict : List (String × TypologyEntry))
    (key : String) (names : List String)
    (hkey : typology_dict.lookup key = none) (hne : names ≠ []) :
    select_elements typology_dict key names = .error "KeyError" ∧
      select_parameters typology_dict key names = .error "KeyError" := by
  cases names with
  | nil => exact absurd rfl hne
  | cons n rest =>
    constructor
    · show select_with TypologyEntry.elements typology_dict key (n :: rest) = _
      rw [select_with, hkey]
    · show select_with TypologyEntry.parameters typology_dict key (n :: rest) = _
      rw [select_with, hkey]

theorem select_missing_category_aborts_witness :
    select_elements [] "Inversor - (INVERSOR)" ["UP1 INV1.1-01"] =
        .error "KeyError" ∧
      select_parameters [] "Inversor - (INVERSOR)" ["UP1 INV1.1-01"] =
        .error "KeyError" :=
  select_missing_category_aborts [] "Inversor - (INVERSOR)" ["UP1 INV1.1-01"]
    rfl (by decide)

/-- Claim C8: header extraction keeps exactly the stripped header-cell
texts that are nonempty, in document order (an order-preserving
sublist of the stripped cells), so the returned headers can be fewer
than the columns of the table. -/
theorem extract_headers_omit_blank (cells : List String) :
    (extract_headers cells).Sublist (cells.map pyStrip) ∧
      (∀ s ∈ extract_headers cells, s ≠ "") ∧
      (∀ c ∈ cells, pyStrip c ≠ "" → pyStrip c ∈ extract_headers cells) ∧
      (extract_headers cells).length ≤ cells.length := by
  refine ⟨List.filter_sublist _, ?_, ?_, ?_⟩
  · intro s hs
    rw [extract_headers, List.mem_filter] at hs
    intro he
    rw [he] at hs
    exact absurd hs.2 (by decide)
  · intro c hc hne
    rw [extract_headers, List.mem_filter]
    refine ⟨List.mem_map_of_mem pyStrip hc, ?_⟩
    have hf : (pyStrip c).isEmpty = false := by
      rw [← Bool.not_eq_true]
      intro he
      exact hne ((String.isEmpty_iff _).mp he)
    rw [hf]
    rfl
  · calc (extract_headers cells).length
        ≤ (cells.map pyStrip).length := (List.filter_sublist _).length_le
      _ = cells.length := List.length_map _ _

theorem extract_headers_omit_blank_witness :
    pyStrip "Fecha" ∈ extract_headers ["Fecha", " ", "Potencia"] ∧
      (extract_headers ["Fecha", " ", "Potencia"]).length ≤
        (["Fecha", " ", "Potencia"] : List String).length :=
  ⟨(extract_headers_omit_blank ["Fecha", " ", "Potencia"]).2.2.1 "Fecha"
     (by decide) (by decide),
   (extract_headers_omit_blank ["Fecha", " ", "Potencia"]).2.2.2⟩

/- ### Theorems about DownloadService -/

/-- Claim C7, refuted by the code: the two timeout outcomes are *not*
distinct.  At the same timeout, a download directory in which the file
never appears and one in which the file exists but every open-for-append
probe raises `PermissionError` both make
`_wait_for_downloaded_file` return `None`, and `download_data` then
raises the same `FileNotFoundError` in both cases. -/
theorem wait_timeout_outcomes_not_distinct :
    wait_for_downloaded_file (fun _ => .absent) "QuickAnalysis.xlsx" 3 = none ∧
      wait_for_downloaded_file (fun _ => .locked) "QuickAnalysis.xlsx" 3 = none ∧
      download_data_outcome (fun _ => .absent) "QuickAnalysis.xlsx" 3 =
        download_data_outcome (fun _ => .locked) "QuickAnalysis.xlsx" 3 :=
  ⟨rfl, rfl, rfl⟩

lemma waitLoop_none (fs : Nat → FileObs) (path : String) :
    ∀ r elapsed, (∀ t, elapsed ≤ t → t < elapsed + r → fs t ≠ .ready) →
      waitLoop fs path r elapsed = none := by
  intro r
  induction r with
  | zero => intro elapsed h; rfl
  | succ rr ih =>
    intro elapsed h
    rw [waitLoop]
    have hcur : fs elapsed ≠ .ready := h elapsed le_rfl (by omega)
    cases hfs : fs elapsed
    · exact ih (elapsed + 1) (fun t ht1 ht2 => h t (by omega) (by omega))
    · exact ih (elapsed + 1) (fun t ht1 ht2 => h t (by omega) (by omega))
    · exact absurd hfs hcur

/-- Claim C7 as amended: whenever the file is never observed appendable
before the overall timeout — whether because it never appears or because
the write-lock probe keeps raising `PermissionError` — the wait returns
the single `None` result and `download_data` raises the same
`FileNotFoundError`; the two timeout outcomes are indistinguishable. -/
theorem wait_timeout_yields_same_not_found (fs : Nat → FileObs) (path : String)
    (timeout : Nat) (h : ∀ t, t < timeout → fs t ≠ .ready) :
    wait_for_downloaded_file fs path timeout = none ∧
      download_data_outcome fs path timeout = .error "FileNotFoundError" := by
  have hw : wait_for_downloaded_file fs path timeout = none :=
    waitLoop_none fs path timeout 0 (fun t ht1 ht2 => h t (by omega))
  refine ⟨hw, ?_⟩
  rw [download_data_outcome, hw]

theorem wait_timeout_yields_same_not_found_witness :
    wait_for_downloaded_file (fun _ => .locked) "QuickAnalysis.xlsx" 2 = none ∧
      download_data_outcome (fun _ => .locked) "QuickAnalysis.xlsx" 2 =
        .error "FileNotFoundError" :=
  wait_timeout_yields_same_not_found (fun _ => .locked) "QuickAnalysis.xlsx" 2
    (fun t ht => fun hcontra => FileObs.noConfusion hcontra)
